import Mathlib

/-!
Verification development for the chattest repository: a shallow embedding of
the registration HTTP endpoints (server.cjs / unnamed/part_000), the
socket-event server (unnamed/part_000) and the client-side chat context
(src/contexts/ChatContext.tsx, unnamed/part_002), together with theorems
settling the frozen claims about the spec.
-/

namespace Chat

/-! ## Registration endpoints (src/server.cjs lines 41-105, src/unnamed/part_000 lines 245-273)

Both servers keep `{users, counter}` and implement identical logic for
POST /api/users and DELETE /api/users.  A registered user record keeps the
fields the counter logic touches: `username` (the uniqueness key),
`sequentialId` (the value of the counter at registration) and
`displayUsername` (the handle string `#N`).  The other copied request-body
fields (id, name, avatar, createdAt) do not interact with the counter or
handle assignment and are omitted. -/

structure RegUser where
  username : String
  sequentialId : Nat
  displayUsername : String
  deriving Repr, DecidableEq

structure RegState where
  users : List RegUser
  counter : Nat
  deriving Repr, DecidableEq

def initRegState : RegState := { users := [], counter := 0 }

/-- POST /api/users: reject if the username already exists (HTTP 400,
modelled as `none`), otherwise increment the counter, assign
`sequentialId = counter` and `displayUsername = "#" ++ counter`, and append
the user. -/
def postUser (s : RegState) (username : String) : RegState × Option RegUser :=
  if s.users.any (fun u => u.username = username) then
    (s, none)
  else
    let c := s.counter + 1
    let u : RegUser := { username := username, sequentialId := c,
                         displayUsername := "#" ++ toString c }
    ({ users := s.users ++ [u], counter := c }, some u)

/-- DELETE /api/users: wipe the user list and reset the counter to 0. -/
def deleteUsers (_s : RegState) : RegState := { users := [], counter := 0 }

/-- A sequence of registration requests processed in order. -/
def postUsers (s : RegState) (reqs : List String) : RegState :=
  reqs.foldl (fun s r => (postUser s r).1) s

/-- Invariant tying the counter to the positions of registered users:
the counter equals the number of users (when starting from the initial
state) and the list of (sequential id, handle) pairs is exactly
`(1, #1), (2, #2), ...` in registration order. -/
def regInv (s : RegState) : Prop :=
  s.counter = s.users.length ∧
  s.users.map (fun u => (u.sequentialId, u.displayUsername)) =
    (List.range s.users.length).map (fun i => (i + 1, "#" ++ toString (i + 1)))

theorem regInv_init : regInv initRegState := ⟨rfl, rfl⟩

theorem regInv_post (s : RegState) (r : String) (h : regInv s) :
    regInv (postUser s r).1 := by
  obtain ⟨hc, hl⟩ := h
  by_cases hdup : s.users.any (fun u => u.username = r)
  · simpa [postUser, hdup, regInv] using ⟨hc, hl⟩
  · simp only [regInv, postUser, hdup, Bool.false_eq_true, if_false]
    constructor
    · simp [hc]
    · rw [List.map_append, hl, List.length_append]
      simp [List.range_succ, hc]

theorem regInv_postUsers (s : RegState) (reqs : List String) (h : regInv s) :
    regInv (postUsers s reqs) := by
  induction reqs generalizing s with
  | nil => exact h
  | cons r rs ih => exact ih _ (regInv_post s r h)

/-- C3: starting from the initial state, after any sequence of registration
requests the n-th registered user (0-indexed position n-1) carries
sequential id n and handle `#n`; consequently the stored sequential ids are
`1, 2, 3, ...` in order, strictly increasing, with no two users sharing an
id (and hence no two sharing a handle, the handle being `#` followed by the
id). -/
theorem c3_sequential_handles (reqs : List String) :
    (∀ i : Fin (postUsers initRegState reqs).users.length,
      ((postUsers initRegState reqs).users.get i).sequentialId = i.val + 1 ∧
      ((postUsers initRegState reqs).users.get i).displayUsername =
        "#" ++ toString (i.val + 1)) ∧
    ((postUsers initRegState reqs).users.map (fun u => u.sequentialId)).Pairwise
      (fun a b => a < b) := by
  obtain ⟨hc, hl⟩ := regInv_postUsers initRegState reqs regInv_init
  have hidx : ∀ i : Fin (postUsers initRegState reqs).users.length,
      ((postUsers initRegState reqs).users.get i).sequentialId = i.val + 1 ∧
      ((postUsers initRegState reqs).users.get i).displayUsername =
        "#" ++ toString (i.val + 1) := by
    intro i
    have h2 := congrArg (fun l => l[i.val]?) hl
    simp only [List.getElem?_map] at h2
    rw [List.getElem?_eq_getElem i.isLt,
        List.getElem?_eq_getElem (by simpa using i.isLt)] at h2
    simp only [Option.map_some', Option.some.injEq, List.getElem_range,
               Prod.mk.injEq] at h2
    simpa [List.get_eq_getElem] using h2
  refine ⟨hidx, ?_⟩
  rw [List.pairwise_iff_getElem]
  intro i j hi hj hij
  have hi2 := (hidx ⟨i, by simpa using hi⟩).1
  have hj2 := (hidx ⟨j, by simpa using hj⟩).1
  simp only [List.get_eq_getElem] at hi2 hj2
  simp only [List.getElem_map]
  omega

/-- C10: DELETE /api/users resets the state to empty users and counter 0,
and the next registration (with any username) succeeds and is assigned
sequential id 1 and handle `#1`. -/
theorem c10_delete_resets_counter (s : RegState) (name : String) :
    deleteUsers s = { users := [], counter := 0 } ∧
    postUser (deleteUsers s) name =
      ({ users := [{ username := name, sequentialId := 1,
                     displayUsername := "#1" }], counter := 1 },
       some { username := name, sequentialId := 1, displayUsername := "#1" }) := by
  constructor
  · rfl
  · simp only [postUser, deleteUsers]
    rfl

/-! ## WebSocket server (src/unnamed/part_000)

`globalData` holds `onlineUsers`, `conversations`, `messages` and
`friendRequests` as JS `Map`s, modelled as association lists with
first-occurrence lookup and set-in-place-or-append update (JS `Map`
semantics).  Socket.io rooms are modelled as a map from room name to the
sockets joined to it; `socket.join` is the only way membership grows, and
the transport removes a disconnecting socket from every room.  Each event
handler returns the new state together with the list of
(target socket, event) deliveries it emits. -/

def alookup {α : Type} : List (String × α) → String → Option α
  | [], _ => none
  | p :: ps, k => if p.1 = k then some p.2 else alookup ps k

def aset {α : Type} : List (String × α) → String → α → List (String × α)
  | [], k, v => [(k, v)]
  | p :: ps, k, v => if p.1 = k then (k, v) :: ps else p :: aset ps k v

theorem alookup_aset {α : Type} (m : List (String × α)) (k : String) (v : α) :
    alookup (aset m k v) k = some v := by
  induction m with
  | nil => simp [aset, alookup]
  | cons p ps ih =>
    by_cases h : p.1 = k
    · simp [aset, alookup, h]
    · simp [aset, alookup, h, ih]

theorem alookup_aset_ne {α : Type} (m : List (String × α)) (k k' : String)
    (v : α) (h : k' ≠ k) : alookup (aset m k v) k' = alookup m k' := by
  have h2 : ¬(k = k') := fun hh => h hh.symm
  induction m with
  | nil => simp [aset, alookup, h2]
  | cons p ps ih =>
    by_cases hp : p.1 = k
    · simp [aset, alookup, hp, h2]
    · simp [aset, alookup, hp, ih]

theorem mem_aset {α : Type} {m : List (String × α)} {k : String} {v : α}
    {p : String × α} (h : p ∈ aset m k v) : p.1 = k ∨ p ∈ m := by
  induction m with
  | nil => simp [aset] at h; simp [h]
  | cons q qs ih =>
    by_cases hq : q.1 = k
    · simp [aset, hq] at h
      rcases h with h | h
      · left; simp [h]
      · right; simp [h]
    · simp [aset, hq] at h
      rcases h with h | h
      · right; simp [h]
      · rcases ih h with h2 | h2
        · left; exact h2
        · right; simp [h2]

structure OnlineInfo where
  socketId : String
  lastSeen : Nat
  deriving Repr, DecidableEq

structure FriendReq where
  id : String
  senderId : String
  receiverId : String
  senderName : String
  senderUsername : String
  status : String
  deriving Repr, DecidableEq

structure SMessage where
  id : String
  senderId : String
  receiverId : String
  content : String
  deriving Repr, DecidableEq

structure SConversation where
  id : String
  participants : List String
  lastMessage : Option SMessage
  deriving Repr, DecidableEq

structure ServerState where
  connectedSockets : List String
  onlineUsers : List (String × OnlineInfo)
  conversations : List (String × SConversation)
  messages : List (String × List SMessage)
  friendRequests : List (String × List FriendReq)
  rooms : List (String × List String)
  deriving Repr, DecidableEq

def initServer : ServerState :=
  { connectedSockets := [], onlineUsers := [], conversations := [],
    messages := [], friendRequests := [], rooms := [] }

inductive SEvent where
  | userOnline (uid : String)
  | userOffline (uid : String)
  | onlineUsersList (uids : List String)
  | friendRequestsUpdate (reqs : List FriendReq)
  | friendRequestReceived (req : FriendReq)
  | friendRequestSent (receiverId : String)
  | friendRequestAccepted (convId friendId : String)
  | conversationCreated (convId friendId : String)
  | messageReceived (convId : String) (msg : SMessage)
  | userTyping (uid : String)
  | userStoppedTyping (uid : String)
  deriving Repr, DecidableEq

def roomMembers (s : ServerState) (room : String) : List String :=
  (alookup s.rooms room).getD []

/-- `io.to(room).emit(e)`: deliver `e` to every socket joined to `room`. -/
def emitToRoom (s : ServerState) (room : String) (e : SEvent) :
    List (String × SEvent) :=
  (roomMembers s room).map (fun sk => (sk, e))

def joinRoom (rooms : List (String × List String)) (room sock : String) :
    List (String × List String) :=
  let old := (alookup rooms room).getD []
  aset rooms room (if sock ∈ old then old else old ++ [sock])

/-- `io.on('connection')`: a new socket is connected (before any login). -/
def connectSocket (s : ServerState) (sock : String) : ServerState :=
  { s with connectedSockets :=
      if sock ∈ s.connectedSockets then s.connectedSockets
      else s.connectedSockets ++ [sock] }

/-- `socket.on('user-login')` (part_000 lines 40-78): record the user in
`onlineUsers` (last-writer-wins), join the personal room `user_<id>`,
broadcast `user-online` to every other connected socket, send the
`online-users-list` snapshot (all online users except the new one) and the
user's pending friend requests back to the logging-in socket. -/
def userLogin (s : ServerState) (sock uid : String) (now : Nat) :
    ServerState × List (String × SEvent) :=
  let s1 := { s with
    onlineUsers := aset s.onlineUsers uid { socketId := sock, lastSeen := now },
    rooms := joinRoom s.rooms ("user_" ++ uid) sock }
  (s1,
    (s.connectedSockets.filter (fun c => c ≠ sock)).map
      (fun c => (c, SEvent.userOnline uid)) ++
    [(sock, SEvent.onlineUsersList
        ((s1.onlineUsers.filter (fun p => p.1 ≠ uid)).map (fun p => p.1)))] ++
    [(sock, SEvent.friendRequestsUpdate
        ((alookup s.friendRequests uid).getD []))])

/-- `socket.on('send-friend-request')` (part_000 lines 81-107): build a
`pending` request, push it onto the receiver's request list (creating the
list if absent), notify the receiver's room, confirm to the sender.  There
is no duplicate or already-friends check. -/
def sendFriendRequestHandler (s : ServerState)
    (sock senderId receiverId senderName senderUsername reqId : String) :
    ServerState × List (String × SEvent) :=
  let req : FriendReq :=
    { id := reqId, senderId := senderId, receiverId := receiverId,
      senderName := senderName, senderUsername := senderUsername,
      status := "pending" }
  let old := (alookup s.friendRequests receiverId).getD []
  let s1 := { s with friendRequests := aset s.friendRequests receiverId (old ++ [req]) }
  (s1,
    emitToRoom s1 ("user_" ++ receiverId) (SEvent.friendRequestReceived req) ++
    [(sock, SEvent.friendRequestSent receiverId)])

/-- `socket.on('accept-friend-request')` (part_000 lines 110-156): find the
request by id in the acting user's list; if present, splice it out,
unconditionally create a fresh conversation `conv_<now>_<sender>_<user>`
with an empty message history, and notify both personal rooms. -/
def acceptFriendRequestHandler (s : ServerState)
    (sock requestId userId : String) (now : Nat) :
    ServerState × List (String × SEvent) :=
  let userRequests := (alookup s.friendRequests userId).getD []
  match userRequests.find? (fun r => r.id = requestId) with
  | none => (s, [])
  | some req =>
    let remaining := userRequests.eraseP (fun r => r.id = requestId)
    let convId := "conv_" ++ toString now ++ "_" ++ req.senderId ++ "_" ++ userId
    let conv : SConversation :=
      { id := convId, participants := [req.senderId, userId], lastMessage := none }
    let s1 := { s with
      friendRequests := aset s.friendRequests userId remaining,
      conversations := aset s.conversations convId conv,
      messages := aset s.messages convId [] }
    (s1,
      emitToRoom s1 ("user_" ++ req.senderId)
        (SEvent.friendRequestAccepted convId userId) ++
      emitToRoom s1 ("user_" ++ userId)
        (SEvent.conversationCreated convId req.senderId) ++
      emitToRoom s1 ("user_" ++ userId) (SEvent.friendRequestsUpdate remaining))

/-- `socket.on('send-message')` (part_000 lines 159-196): build the message,
append it to the conversation's history (creating the history entry if
absent), update the conversation's `lastMessage` if the conversation
exists, and emit `message-received` to the personal room of every
participant.  There is no participant or content validation. -/
def sendMessageHandler (s : ServerState)
    (sock conversationId senderId receiverId content msgId : String) :
    ServerState × List (String × SEvent) :=
  let msg : SMessage :=
    { id := msgId, senderId := senderId, receiverId := receiverId,
      content := content }
  let oldMsgs := (alookup s.messages conversationId).getD []
  let conversations1 :=
    match alookup s.conversations conversationId with
    | some conv =>
        aset s.conversations conversationId { conv with lastMessage := some msg }
    | none => s.conversations
  let s1 := { s with
    messages := aset s.messages conversationId (oldMsgs ++ [msg]),
    conversations := conversations1 }
  (s1,
    match alookup s.conversations conversationId with
    | some conv =>
        (conv.participants.map (fun p =>
          emitToRoom s1 ("user_" ++ p)
            (SEvent.messageReceived conversationId msg))).flatten
    | none => [])

/-- `socket.on('typing-start')` (part_000 lines 199-202): emit `user-typing`
to the room `conv_<conversationId>` (everyone in it except the sender);
nothing is stored. -/
def typingStartHandler (s : ServerState) (sock conversationId userId : String) :
    ServerState × List (String × SEvent) :=
  (s, ((roomMembers s ("conv_" ++ conversationId)).filter
        (fun c => c ≠ sock)).map (fun c => (c, SEvent.userTyping userId)))

/-- `socket.on('typing-stop')` (part_000 lines 204-207). -/
def typingStopHandler (s : ServerState) (sock conversationId userId : String) :
    ServerState × List (String × SEvent) :=
  (s, ((roomMembers s ("conv_" ++ conversationId)).filter
        (fun c => c ≠ sock)).map (fun c => (c, SEvent.userStoppedTyping userId)))

/-- `socket.on('disconnect')` (part_000 lines 210-227): delete the first
`onlineUsers` entry whose socket id matches, broadcast `user-offline` if one
was found; the transport also removes the socket from every room and from
the connected set. -/
def disconnectHandler (s : ServerState) (sock : String) :
    ServerState × List (String × SEvent) :=
  let s1 := { s with
    connectedSockets := s.connectedSockets.filter (fun c => c ≠ sock),
    rooms := s.rooms.map (fun p => (p.1, p.2.filter (fun c => c ≠ sock))) }
  match s.onlineUsers.find? (fun p => p.2.socketId = sock) with
  | some entry =>
      ({ s1 with onlineUsers := s.onlineUsers.eraseP (fun p => p.2.socketId = sock) },
       (s1.connectedSockets.filter (fun c => c ≠ sock)).map
         (fun c => (c, SEvent.userOffline entry.1)))
  | none => (s1, [])

/-- `socket.on('heartbeat')` (part_000 lines 230-234): refresh `lastSeen`
if the user is in `onlineUsers`; otherwise silently do nothing. -/
def heartbeatHandler (s : ServerState) (uid : String) (now : Nat) :
    ServerState × List (String × SEvent) :=
  ({ s with onlineUsers := s.onlineUsers.map (fun p =>
      if p.1 = uid then (p.1, { p.2 with lastSeen := now }) else p) }, [])

inductive Action where
  | connect (sock : String)
  | login (sock uid : String) (now : Nat)
  | sendFriendReq (sock senderId receiverId senderName senderUsername reqId : String)
  | acceptFriendReq (sock requestId userId : String) (now : Nat)
  | sendMsg (sock conversationId senderId receiverId content msgId : String)
  | typingStart (sock conversationId userId : String)
  | typingStop (sock conversationId userId : String)
  | heartbeat (uid : String) (now : Nat)
  | disconnect (sock : String)
  deriving Repr, DecidableEq

def step (s : ServerState) : Action → ServerState × List (String × SEvent)
  | .connect sock => (connectSocket s sock, [])
  | .login sock uid now => userLogin s sock uid now
  | .sendFriendReq sock sid rid nm un reqId =>
      sendFriendRequestHandler s sock sid rid nm un reqId
  | .acceptFriendReq sock reqId uid now =>
      acceptFriendRequestHandler s sock reqId uid now
  | .sendMsg sock cid sid rid content mid =>
      sendMessageHandler s sock cid sid rid content mid
  | .typingStart sock cid uid => typingStartHandler s sock cid uid
  | .typingStop sock cid uid => typingStopHandler s sock cid uid
  | .heartbeat uid now => heartbeatHandler s uid now
  | .disconnect sock => disconnectHandler s sock

def run (s : ServerState) (acts : List Action) : ServerState :=
  acts.foldl (fun s a => (step s a).1) s

/-! ## Claims about the socket server -/

/-- C1: a send-message request appends the message to the conversation's
history in the store unconditionally — whatever the presence state of the
receiver and whatever becomes of the fan-out — and a subsequent reconnect
(user-login) leaves the stored histories untouched, so the full message is
still in the store and retrievable after the receiver reconnects. -/
theorem c1_message_never_lost (s : ServerState)
    (sock cid sid rid content mid sock2 uid : String) (now : Nat) :
    alookup (sendMessageHandler s sock cid sid rid content mid).1.messages cid =
      some (((alookup s.messages cid).getD []) ++
        [{ id := mid, senderId := sid, receiverId := rid, content := content }]) ∧
    (userLogin (sendMessageHandler s sock cid sid rid content mid).1
        sock2 uid now).1.messages =
      (sendMessageHandler s sock cid sid rid content mid).1.messages := by
  constructor
  · simp [sendMessageHandler, alookup_aset]
  · rfl

/-- Two send/accept friend-request cycles for the same pair (A, B),
exactly as the socket server processes them. -/
def c2acts : List Action :=
  [Action.connect "sA", Action.connect "sB",
   Action.login "sA" "A" 0, Action.login "sB" "B" 0,
   Action.sendFriendReq "sA" "A" "B" "Alice" "#1" "r1",
   Action.acceptFriendReq "sB" "r1" "B" 1,
   Action.sendFriendReq "sA" "A" "B" "Alice" "#1" "r2",
   Action.acceptFriendReq "sB" "r2" "B" 2]

/-- C2 counterexample: the server's accept-friend-request handler creates a
fresh conversation every time, so after two send/accept cycles for the same
pair the store holds TWO conversations whose participant list is
`[A, B]` — not exactly one. -/
theorem c2_counterexample_duplicate_conversations :
    ((run initServer c2acts).conversations.filter
      (fun p => p.2.participants = ["A", "B"])).length = 2 := by decide

/-- Pending friend requests from `senderId` to `receiverId` in the
receiver's request list. -/
def pendingCount (s : ServerState) (senderId receiverId : String) : Nat :=
  ((alookup s.friendRequests receiverId).getD []).countP
    (fun r => r.senderId = senderId && r.receiverId = receiverId &&
              r.status = "pending")

/-- C4 (amended): the server's send-friend-request handler has no duplicate
check: every send — including a second one from A to B while the first is
still pending — is accepted and appended, so the number of pending
requests for the ordered pair always grows by one. -/
theorem c4_amended_send_always_appends (s : ServerState)
    (sock senderId receiverId nm un rid : String) :
    pendingCount (sendFriendRequestHandler s sock senderId receiverId nm un rid).1
        senderId receiverId =
      pendingCount s senderId receiverId + 1 := by
  simp [pendingCount, sendFriendRequestHandler, alookup_aset, List.countP_append,
        List.countP_cons]

/-- A sends a friend request to B twice before B responds. -/
def c4acts : List Action :=
  [Action.connect "sA", Action.login "sA" "A" 0,
   Action.sendFriendReq "sA" "A" "B" "Alice" "#1" "r1",
   Action.sendFriendReq "sA" "A" "B" "Alice" "#1" "r2"]

/-- C4 counterexample: the second send is not rejected; afterwards TWO
pending requests exist for the ordered pair (A, B). -/
theorem c4_counterexample_two_pending :
    pendingCount (run initServer c4acts) "A" "B" = 2 := by decide

/-- A server state with one conversation between A and B, both online. -/
def c6state : ServerState :=
  { connectedSockets := ["sA", "sB"],
    onlineUsers := [("A", { socketId := "sA", lastSeen := 0 }),
                    ("B", { socketId := "sB", lastSeen := 0 })],
    conversations := [("c1", { id := "c1", participants := ["A", "B"],
                               lastMessage := none })],
    messages := [("c1", [])],
    friendRequests := [],
    rooms := [("user_A", ["sA"]), ("user_B", ["sB"])] }

/-- C6 counterexample: a send with empty content from sender Z, who is not
a participant of conversation c1, is not rejected: the message is appended
to the history. -/
theorem c6_counterexample_no_rejection :
    alookup (sendMessageHandler c6state "sZ" "c1" "Z" "B" "" "m1").1.messages "c1" =
      some [{ id := "m1", senderId := "Z", receiverId := "B", content := "" }] := by
  decide

/-- C6 (amended): the send-message handler performs no validation at all —
any call whose sender is not a participant of the conversation, or whose
content is empty, is not rejected: its message is appended to the
conversation's history exactly like any other message. -/
theorem c6_amended_no_validation (s : ServerState)
    (sock cid sid rid content mid : String)
    (conv : SConversation) (hconv : alookup s.conversations cid = some conv)
    (hinvalid : sid ∉ conv.participants ∨ content = "") :
    alookup (sendMessageHandler s sock cid sid rid content mid).1.messages cid =
      some (((alookup s.messages cid).getD []) ++
        [{ id := mid, senderId := sid, receiverId := rid, content := content }]) := by
  simp [sendMessageHandler, alookup_aset]

theorem c6_amended_witness :
    (alookup (sendMessageHandler c6state "sZ" "c1" "Z" "B" "hello" "m1").1.messages
        "c1" =
      some (((alookup c6state.messages "c1").getD []) ++
        [{ id := "m1", senderId := "Z", receiverId := "B", content := "hello" }])) ∧
    (alookup (sendMessageHandler c6state "sA" "c1" "A" "B" "" "m2").1.messages
        "c1" =
      some (((alookup c6state.messages "c1").getD []) ++
        [{ id := "m2", senderId := "A", receiverId := "B", content := "" }])) :=
  ⟨c6_amended_no_validation c6state "sZ" "c1" "Z" "B" "hello" "m1"
      { id := "c1", participants := ["A", "B"], lastMessage := none }
      rfl (Or.inl (by decide)),
   c6_amended_no_validation c6state "sA" "c1" "A" "B" "" "m2"
      { id := "c1", participants := ["A", "B"], lastMessage := none }
      rfl (Or.inr rfl)⟩

/-- Every room ever created by the server is a personal room `user_<id>`:
the only `join` in the code is `socket.join('user_' + userData.id)`. -/
def roomsUserOnly (s : ServerState) : Prop :=
  ∀ p ∈ s.rooms, ∃ uid, p.1 = "user_" ++ uid

theorem user_room_ne_conv_room (a b : String) :
    "user_" ++ a ≠ "conv_" ++ b := by
  intro h
  have h2 : ("user_" ++ a).data = ("conv_" ++ b).data := congrArg String.data h
  simp [String.data_append] at h2

theorem alookup_none_of_no_key {α : Type} (m : List (String × α)) (k : String)
    (h : ∀ p ∈ m, p.1 ≠ k) : alookup m k = none := by
  induction m with
  | nil => rfl
  | cons p ps ih =>
    have hp : ¬p.1 = k := h p (List.mem_cons_self p ps)
    simp only [alookup, hp, if_false]
    exact ih fun q hq => h q (List.mem_cons_of_mem p hq)

theorem roomsUserOnly_step (s : ServerState) (a : Action)
    (h : roomsUserOnly s) : roomsUserOnly (step s a).1 := by
  cases a with
  | connect sock => exact h
  | login sock uid now =>
    intro p hp
    simp only [step, userLogin, joinRoom] at hp
    rcases mem_aset hp with h1 | h1
    · exact ⟨uid, h1⟩
    · exact h p h1
  | sendFriendReq sock sid rid nm un reqId => exact h
  | acceptFriendReq sock reqId uid now =>
    simp only [step, acceptFriendRequestHandler]
    rcases hf : ((alookup s.friendRequests uid).getD []).find?
        (fun r => r.id = reqId) with _ | req
    · simpa [hf] using h
    · simpa [hf] using h
  | sendMsg sock cid sid rid content mid => exact h
  | typingStart sock cid uid => exact h
  | typingStop sock cid uid => exact h
  | heartbeat uid now => exact h
  | disconnect sock =>
    rcases hf : s.onlineUsers.find? (fun q => q.2.socketId = sock) with _ | entry
    · intro p hp
      simp only [step, disconnectHandler, hf] at hp
      obtain ⟨q, hq, rfl⟩ := List.mem_map.1 hp
      exact h q hq
    · intro p hp
      simp only [step, disconnectHandler, hf] at hp
      obtain ⟨q, hq, rfl⟩ := List.mem_map.1 hp
      exact h q hq

theorem roomsUserOnly_run (acts : List Action) :
    roomsUserOnly (run initServer acts) := by
  suffices hgen : ∀ s, roomsUserOnly s → roomsUserOnly (run s acts) by
    refine hgen initServer ?_
    intro p hp
    simp [initServer] at hp
  induction acts with
  | nil => intro s hs; exact hs
  | cons a as ih => intro s hs; exact ih _ (roomsUserOnly_step s a hs)

/-- C9: the typing handlers never persist anything (the state is returned
unchanged), and in every state the server can actually reach, a
typing-start or typing-stop event is delivered to NO connection at all —
online or not — because the handlers emit to the room `conv_<id>` and no
socket ever joins a `conv_*` room (logins only join `user_*` rooms). -/
theorem c9_typing_events_dropped (acts : List Action) (sock cid uid : String) :
    step (run initServer acts) (Action.typingStart sock cid uid) =
      (run initServer acts, []) ∧
    step (run initServer acts) (Action.typingStop sock cid uid) =
      (run initServer acts, []) := by
  have hrooms := roomsUserOnly_run acts
  have hkey : ∀ p ∈ (run initServer acts).rooms, p.1 ≠ "conv_" ++ cid := by
    intro p hp
    obtain ⟨u, hu⟩ := hrooms p hp
    rw [hu]
    exact user_room_ne_conv_room u cid
  have hnone := alookup_none_of_no_key _ _ hkey
  constructor
  · simp [step, typingStartHandler, roomMembers, hnone]
  · simp [step, typingStopHandler, roomMembers, hnone]

/-! ## Client chat context (src/src/contexts/ChatContext.tsx, unnamed/part_002)

The two context providers implement identical `createConversation`,
`lockConversation` and `unlockConversation` logic over the `conversations`
state array; timestamps (`Date`) are modelled as natural-number
milliseconds. -/

structure CMessage where
  id : String
  senderId : String
  receiverId : String
  content : String
  deriving Repr, DecidableEq

structure CConversation where
  id : String
  participants : List String
  lastMessage : Option CMessage
  unreadCount : Nat
  updatedAt : Nat
  status : String
  password : Option String
  deriving Repr, DecidableEq

/-- ChatContext.tsx lines 297-319: look for an existing conversation
containing both participants; if found return its id unchanged, otherwise
append a fresh `active` conversation `conv_<now>` and an empty message
entry for it. -/
def createConversation (convs : List CConversation)
    (msgs : List (String × List CMessage)) (currentUserId userId : String)
    (now : Nat) : String × List CConversation × List (String × List CMessage) :=
  match convs.find? (fun c => c.participants.contains userId &&
      c.participants.contains currentUserId) with
  | some c => (c.id, convs, msgs)
  | none =>
    let newConvId := "conv_" ++ toString now
    let newConv : CConversation :=
      { id := newConvId, participants := [currentUserId, userId],
        lastMessage := none, unreadCount := 0, updatedAt := now,
        status := "active", password := none }
    (newConvId, convs ++ [newConv], aset msgs newConvId [])

/-- ChatContext.tsx lines 593-599 (part_002 lines 530-536): set the status
to `locked` and store the given password on the matching conversation. -/
def lockConversation (convs : List CConversation) (cid pw : String) :
    List CConversation :=
  convs.map (fun c => if c.id = cid then
    { c with status := "locked", password := some pw } else c)

/-- ChatContext.tsx lines 601-612 (part_002 lines 538-549): if the
conversation exists and its stored password equals the given one, set the
status to `active`, clear the password and return true; otherwise return
false and change nothing. -/
def unlockConversation (convs : List CConversation) (cid pw : String) :
    Bool × List CConversation :=
  match convs.find? (fun c => c.id = cid) with
  | some conv =>
    if conv.password = some pw then
      (true, convs.map (fun c => if c.id = cid then
        { c with status := "active", password := none } else c))
    else (false, convs)
  | none => (false, convs)

/-- The record update applied by a successful unlock. -/
def unlockedOf (conv : CConversation) : CConversation :=
  { conv with status := "active", password := none }

theorem find_map_update (convs : List CConversation) (cid : String)
    (g : CConversation → CConversation) (hg : ∀ c, (g c).id = c.id) :
    (convs.map (fun c => if c.id = cid then g c else c)).find?
        (fun c => c.id = cid) =
      (convs.find? (fun c => c.id = cid)).map g := by
  induction convs with
  | nil => rfl
  | cons c cs ih =>
    by_cases hc : c.id = cid
    · simp [hc, hg]
    · simp [hc, ih]

/-- C2 (amended): the client's `createConversation` is idempotent per
participant pair — when a conversation containing both participants
already exists, its id is returned and neither the conversation list nor
the message store changes. -/
theorem c2_amended_create_conversation_idempotent
    (convs : List CConversation) (msgs : List (String × List CMessage))
    (currentUserId userId : String) (now : Nat) (c : CConversation)
    (hfind : convs.find? (fun d => d.participants.contains userId &&
        d.participants.contains currentUserId) = some c) :
    createConversation convs msgs currentUserId userId now =
      (c.id, convs, msgs) := by
  unfold createConversation
  rw [hfind]

def cPairConv : CConversation :=
  { id := "c7", participants := ["A", "B"], lastMessage := none,
    unreadCount := 0, updatedAt := 0, status := "active", password := none }

theorem c2_amended_witness :
    createConversation [cPairConv] [("c7", [])] "A" "B" 5 =
      (cPairConv.id, [cPairConv], [("c7", [])]) :=
  c2_amended_create_conversation_idempotent [cPairConv] [("c7", [])]
    "A" "B" 5 cPairConv (by decide)

/-- C5: unlock with a wrong password (or on a missing conversation)
returns false and leaves the conversation list — statuses and stored
secrets included — completely unchanged; unlock with the correct password
on a locked conversation returns true, sets that conversation's status to
`active` and clears its stored secret while leaving every other
conversation unchanged, and does so exactly once: repeating the same
unlock afterwards returns false and changes nothing (the secret is gone).
The operation is a total function — it never throws. -/
theorem c5_unlock_contract (convs : List CConversation) (cid pw : String) :
    (∀ conv, convs.find? (fun c => c.id = cid) = some conv →
      conv.password ≠ some pw →
      unlockConversation convs cid pw = (false, convs)) ∧
    (convs.find? (fun c => c.id = cid) = none →
      unlockConversation convs cid pw = (false, convs)) ∧
    (∀ conv, convs.find? (fun c => c.id = cid) = some conv →
      conv.password = some pw → conv.status = "locked" →
      (unlockConversation convs cid pw).1 = true ∧
      (∀ c ∈ (unlockConversation convs cid pw).2,
        c.id = cid → c.status = "active" ∧ c.password = none) ∧
      (∀ c ∈ (unlockConversation convs cid pw).2, c.id ≠ cid → c ∈ convs) ∧
      unlockConversation (unlockConversation convs cid pw).2 cid pw =
        (false, (unlockConversation convs cid pw).2)) := by
  refine ⟨?_, ?_, ?_⟩
  · intro conv hfind hpw
    simp [unlockConversation, hfind, hpw]
  · intro hfind
    simp [unlockConversation, hfind]
  · intro conv hfind hpw hlocked
    have hres : unlockConversation convs cid pw =
        (true, convs.map (fun c => if c.id = cid then
          { c with status := "active", password := none } else c)) := by
      simp [unlockConversation, hfind, hpw]
    refine ⟨by simp [hres], ?_, ?_, ?_⟩
    · intro c hc hcid
      rw [hres] at hc
      obtain ⟨d, hd, rfl⟩ := List.mem_map.1 hc
      by_cases hdid : d.id = cid
      · simp [hdid]
      · simp [hdid] at hcid
    · intro c hc hcid
      rw [hres] at hc
      obtain ⟨d, hd, rfl⟩ := List.mem_map.1 hc
      by_cases hdid : d.id = cid
      · exfalso
        apply hcid
        simp [hdid]
      · simpa [hdid] using hd
    · have hfind2 : ((unlockConversation convs cid pw).2).find?
          (fun c => c.id = cid) = some (unlockedOf conv) := by
        rw [hres]
        rw [find_map_update convs cid
          (fun c => { c with status := "active", password := none })
          (fun c => rfl)]
        simp [hfind, unlockedOf]
      have hnp : (unlockedOf conv).password ≠ some pw := by
        simp [unlockedOf]
      conv_lhs => rw [unlockConversation]
      rw [hfind2]
      simp [unlockedOf]

def cLockedConv : CConversation :=
  { id := "c1", participants := ["A", "B"], lastMessage := none,
    unreadCount := 0, updatedAt := 0, status := "locked",
    password := some "pw" }

theorem c5_unlock_witness :
    unlockConversation [cLockedConv] "c1" "bad" = (false, [cLockedConv]) ∧
    (unlockConversation [cLockedConv] "c1" "pw").1 = true :=
  ⟨(c5_unlock_contract [cLockedConv] "c1" "bad").1 cLockedConv
      (by decide) (by decide),
   ((c5_unlock_contract [cLockedConv] "c1" "pw").2.2 cLockedConv
      (by decide) (by decide) (by decide)).1⟩

def cPlainConv : CConversation :=
  { id := "c1", participants := ["A", "B"], lastMessage := none,
    unreadCount := 0, updatedAt := 0, status := "active", password := none }

/-- C8 counterexample: locking conversation c1 with password `secret`
stores the string `secret` itself in the conversation state — the
plaintext, not a hash — where every query over `conversations` (and the
localStorage persistence effect) can read it back. -/
theorem c8_counterexample_plaintext_password :
    (lockConversation [cPlainConv] "c1" "secret").map (fun c => c.password) =
      [some "secret"] := by decide

/-- C8 (amended): `lockConversation` stores the lock password verbatim
(plaintext, no hashing) in the `password` field of the matching
conversation and leaves every other conversation unchanged; the stored
secret is exposed to anything that reads the conversation state. -/
theorem c8_amended_password_stored_verbatim (convs : List CConversation)
    (cid pw : String) (c : CConversation)
    (hc : c ∈ lockConversation convs cid pw) :
    (c.id = cid → c.password = some pw ∧ c.status = "locked") ∧
    (c.id ≠ cid → c ∈ convs) := by
  obtain ⟨d, hd, rfl⟩ := List.mem_map.1 hc
  by_cases hdid : d.id = cid
  · constructor
    · intro _
      simp [hdid]
    · intro hne
      exfalso
      apply hne
      simp [hdid]
  · constructor
    · intro hid
      simp [hdid] at hid
    · intro _
      simpa [hdid] using hd

/-- The conversation c1 as it sits in the state after being locked with
password `secret`. -/
def cLockedSecret : CConversation :=
  { id := "c1", participants := ["A", "B"], lastMessage := none,
    unreadCount := 0, updatedAt := 0, status := "locked",
    password := some "secret" }

theorem c8_amended_witness :
    (cLockedSecret.id = "c1" →
      cLockedSecret.password = some "secret" ∧
      cLockedSecret.status = "locked") ∧
    (cLockedSecret.id ≠ "c1" → cLockedSecret ∈ [cPlainConv]) :=
  c8_amended_password_stored_verbatim [cPlainConv] "c1" "secret"
    cLockedSecret (by decide)

/-! ## Presence (unnamed/part_002 lines 420-446, ChatContext.tsx lines 125-136)

Two different `getUserOnlineStatus` implementations coexist.  localStorage
is modelled as an association list from status key to the `timestamp`
field of the stored blob (for part_002) and the stored last-seen time is an
`Option Nat` of milliseconds (for ChatContext.tsx). -/

/-- part_002 lines 424-425: read `user_status_<id>` first, falling back to
`global_user_status_<id>`. -/
def statusLookup (store : List (String × Nat)) (uid : String) : Option Nat :=
  match alookup store ("user_status_" ++ uid) with
  | some ts => some ts
  | none => alookup store ("global_user_status_" ++ uid)

/-- part_002 lines 420-446: no stored status means offline; a stored
timestamp more than 10000 ms old means offline (and both status keys are
removed); otherwise online.  Returns the status and the possibly
cleaned-up store. -/
def getUserOnlineStatus (store : List (String × Nat)) (uid : String)
    (now : Nat) : String × List (String × Nat) :=
  match statusLookup store uid with
  | none => ("offline", store)
  | some ts =>
    if now - ts > 10000 then
      ("offline",
        (store.filter (fun p => p.1 ≠ "user_status_" ++ uid)).filter
          (fun p => p.1 ≠ "global_user_status_" ++ uid))
    else ("online", store)

/-- ChatContext.tsx lines 125-136: presence from `user_last_seen_<id>`,
with thresholds of 5 minutes (online) and 30 minutes (away), measured in
minutes from milliseconds. -/
def getUserOnlineStatusCtx (lastSeen : Option Nat) (now : Nat) : String :=
  match lastSeen with
  | none => "offline"
  | some t =>
    let diffMinutes := (now - t) / (1000 * 60)
    if diffMinutes < 5 then "online"
    else if diffMinutes < 30 then "away"
    else "offline"

/-- C7 (amended): the part_002 implementation derives presence from
heartbeat recency with a 10-second offline threshold — online when the
last stored heartbeat timestamp is within 10000 ms of now, offline beyond
it — so a user reads as offline 11 seconds after the last heartbeat. -/
theorem c7_amended_ten_second_threshold (store : List (String × Nat))
    (uid : String) (now ts : Nat) (h : statusLookup store uid = some ts) :
    (getUserOnlineStatus store uid now).1 =
      (if now - ts > 10000 then "offline" else "online") ∧
    (getUserOnlineStatus store uid (ts + 11000)).1 = "offline" := by
  constructor
  · rw [getUserOnlineStatus, h]
    by_cases hth : now - ts > 10000
    · simp [hth]
    · simp [hth]
  · rw [getUserOnlineStatus, h]
    have : ts + 11000 - ts > 10000 := by omega
    simp [this]

theorem c7_amended_witness :
    (getUserOnlineStatus [("user_status_A", 100000)] "A" 111000).1 =
      (if 111000 - 100000 > 10000 then "offline" else "online") ∧
    (getUserOnlineStatus [("user_status_A", 100000)] "A" (100000 + 11000)).1 =
      "offline" :=
  c7_amended_ten_second_threshold [("user_status_A", 100000)] "A"
    111000 100000 (by decide)

/-- C7 counterexample: the ChatContext.tsx implementation, which the claim
also covers, uses 5-minute/30-minute thresholds: 11 seconds after the last
heartbeat it still reports `online`, not `offline`. -/
theorem c7_counterexample_ctx_online_after_11s :
    getUserOnlineStatusCtx (some 100000) 111000 = "online" ∧
    getUserOnlineStatusCtx (some 100000) 111000 ≠ "offline" := by
  constructor
  · decide
  · decide

end Chat
